import Mathlib

/-!
Shallow embedding of the sathack submission backend.

Source files embedded:
  - src/lib/googleSheets.js        (findRowByTeamId, addRowToSheet, getSubmissionByTeamId)
  - src/controllers/user_controllers.js (authenticateUser, submitTeamData, getSubmission)
  - src/middlewares (validateSubmission, verifyAuth)

JavaScript runtime values that may be absent or of a wrong type are modelled
by the small inductive `JSVal`; optional object fields by `Option String`.
The external collaborators (Firebase Auth, the Firestore team directory, the
Google Sheet, the WHATWG URL parser and the jsonwebtoken library) are
modelled as explicit parameters or as small structural models of their
documented contracts.  The Google Sheet is the list of its rows, the header
row at index 0, each row a list of cell strings.
-/

namespace Sathack

/-- A JavaScript value as it can arrive in a request body: a string, a
number, a boolean, or absent (`undefined`/`null`). -/
inductive JSVal where
  | vStr (s : String)
  | vNum (n : Int)
  | vBool (b : Bool)
  | vAbsent
deriving Repr, DecidableEq

/-- JS truthiness of a `JSVal` (the `!x` checks in the source). -/
def JSVal.truthy : JSVal → Bool
  | .vStr s => s ≠ ""
  | .vNum n => n ≠ 0
  | .vBool b => b
  | .vAbsent => false

/-- The `typeof x !== 'string'` checks in the source. -/
def JSVal.isString : JSVal → Bool
  | .vStr _ => true
  | _ => false

/-- The JS expression `x || d` for an optional string field `x` with a string
default `d`: absent and empty-string values are falsy and fall through. -/
def jsOr (x : Option String) (d : String) : String :=
  match x with
  | some s => if s = "" then d else s
  | none => d

/-- JS falsiness of an optional string field (`!decoded.uid` style checks):
true when the field is absent or the empty string. -/
def jsFalsy (x : Option String) : Bool :=
  match x with
  | some s => s = ""
  | none => true

/-- JS `s.slice(0, n)` on a string (modelled on code points). -/
def sliceStr (s : String) (n : Nat) : String :=
  String.mk (s.data.take n)

/-- The characters of the JS regex class `\s`, which is also the whitespace
set of `String.prototype.trim` (the rarely-used Unicode space characters are
omitted; all inputs of interest are ASCII). -/
def jsRegexSpace (c : Char) : Bool :=
  c = ' ' || c = '\t' || c = '\n' || c = '\r' || c = '\x0b' || c = '\x0c'

/-- JS `s.trim()`: strip leading and trailing `\s` characters. -/
def jsTrim (s : String) : String :=
  String.mk (((s.data.dropWhile jsRegexSpace).reverse.dropWhile jsRegexSpace).reverse)

/-- JS `s.toLowerCase()` (ASCII-faithful). -/
def jsToLower (s : String) : String :=
  String.mk (s.data.map Char.toLower)

/-! ## Submission Store (src/lib/googleSheets.js) -/

/-- One data row of the sheet, decoded into named fields, as built by
`findRowByTeamId` (each cell defaulted to `''` via `values[i][k] || ''`). -/
structure SubmissionData where
  submissionTime : String
  teamName : String
  teamId : String
  leaderName : String
  leaderPhone : String
  leaderEmail : String
  githubLink : String
  pptLink : String
  videoLink : String
  description : String
deriving Repr, DecidableEq

/-- The record returned by `findRowByTeamId`: the 1-indexed row number and
the decoded data. -/
structure FoundRow where
  rowNumber : Nat
  data : SubmissionData
deriving Repr, DecidableEq

/-- Decode a raw sheet row into `SubmissionData`, mirroring the field-by-field
`values[i][k] || ''` defaults in `findRowByTeamId`. -/
def rowToData (row : List String) : SubmissionData :=
  { submissionTime := (row.get? 0).getD ""
    teamName := (row.get? 1).getD ""
    teamId := (row.get? 2).getD ""
    leaderName := (row.get? 3).getD ""
    leaderPhone := (row.get? 4).getD ""
    leaderEmail := (row.get? 5).getD ""
    githubLink := (row.get? 6).getD ""
    pptLink := (row.get? 7).getD ""
    videoLink := (row.get? 8).getD ""
    description := (row.get? 9).getD "" }

/-- The scan loop of `findRowByTeamId`: `for (let i = 1; i < values.length; i++)
if (values[i][2] === teamId) return {rowNumber: i + 1, data: ...}`.
`rows` is the remaining tail, `i` the current index into `values`. -/
def findRowAux (teamId : String) (rows : List (List String)) (i : Nat) : Option FoundRow :=
  match rows with
  | [] => none
  | row :: rest =>
      if row.get? 2 = some teamId then
        some { rowNumber := i + 1, data := rowToData row }
      else
        findRowAux teamId rest (i + 1)

/-- `findRowByTeamId` from src/lib/googleSheets.js: if there are fewer than two
rows (only the header, or nothing) return `null`; otherwise scan data rows from
index 1 upward and return the first whose column 2 equals `teamId`. -/
def findRowByTeamId (teamId : String) (values : List (List String)) : Option FoundRow :=
  if values.length < 2 then none
  else findRowAux teamId (values.drop 1) 1

/-- The JS object passed to `addRowToSheet` by `submitTeamData`: team and
leader fields are strings (already defaulted in the controller), the four
content fields are the raw request-body values. -/
structure NewSubmission where
  submissionTime : String
  teamName : String
  teamId : String
  leaderName : String
  leaderPhone : String
  leaderEmail : String
  githubLink : JSVal
  pptLink : JSVal
  videoLink : JSVal
  description : JSVal
deriving Repr, DecidableEq

/-- The JS expression `v || ''` used by `addRowToSheet` on each cell: a truthy
string is kept, anything else becomes `''` (non-string truthy values cannot
reach it through the validated route). -/
def jsCell (v : JSVal) : String :=
  match v with
  | .vStr s => s
  | _ => ""

/-- `addRowToSheet` from src/lib/googleSheets.js: append one row built from the
submission fields, each defaulted with `|| ''`, in the fixed column order. -/
def addRowToSheet (d : NewSubmission) (values : List (List String)) : List (List String) :=
  values ++ [[d.submissionTime, d.teamName, d.teamId, d.leaderName, d.leaderPhone,
              d.leaderEmail, jsCell d.githubLink, jsCell d.pptLink, jsCell d.videoLink,
              jsCell d.description]]

/-- `getSubmissionByTeamId` from src/lib/googleSheets.js: the `.data` of
`findRowByTeamId`, or `null`. -/
def getSubmissionByTeamId (teamId : String) (values : List (List String)) :
    Option SubmissionData :=
  match findRowByTeamId teamId values with
  | some r => some r.data
  | none => none

/-! ## Team Directory (Firestore `teamRegistrations` collection) -/

/-- One entry of a team document's `members` array; every field may be
absent. -/
structure Member where
  name : Option String
  phoneNumber : Option String
  email : Option String
deriving Repr, DecidableEq

/-- The data of a `teamRegistrations` document; every field may be absent. -/
structure TeamData where
  teamId : Option String
  teamName : Option String
  status : Option String
  members : Option (List Member)
deriving Repr, DecidableEq

/-- A Firestore document: its id and its data. -/
structure TeamDoc where
  id : String
  data : TeamData
deriving Repr, DecidableEq

/-- The Firestore query `collection("teamRegistrations")
.where("leaderUserId", "==", uid).limit(1).get()` as an abstract lookup:
`none` models an empty query result. -/
def TeamQuery := String → Option TeamDoc

/-! ## Session verification (verifyAuth, src/middlewares) and the
jsonwebtoken library model -/

/-- Structural model of a signed JWT as produced and consumed by the
jsonwebtoken library: the payload fields the backend signs (each may be
absent in an externally minted token), the secret it was signed with, and
the absolute expiry (seconds). -/
structure Token where
  uid : Option String
  email : Option String
  leaderUserId : Option String
  teamId : Option String
  secret : String
  exp : Nat
deriving Repr, DecidableEq

/-- The two verification failures of the jsonwebtoken library that the
middleware distinguishes by `error.name`. -/
inductive JwtError where
  | jsonWebTokenError
  | tokenExpiredError
deriving Repr, DecidableEq

/-- Model of `jwt.verify(token, secret)`: the signature is valid exactly when
the token was signed with the same secret (a wrong secret or tampering throws
`JsonWebTokenError`); an exp at or before the clock throws
`TokenExpiredError`; otherwise the decoded payload is returned. -/
def jwtVerify (t : Token) (secret : String) (now : Nat) : Except JwtError Token :=
  if t.secret ≠ secret then .error .jsonWebTokenError
  else if t.exp ≤ now then .error .tokenExpiredError
  else .ok t

/-- Model of `jwt.sign(payload, secret, { expiresIn })` as called by
`authenticateUser`: all four payload fields present, expiry `now + expiresIn`. -/
def jwtSign (uid email leaderUserId teamId : String) (secret : String)
    (now expiresIn : Nat) : Token :=
  { uid := some uid, email := some email, leaderUserId := some leaderUserId,
    teamId := some teamId, secret := secret, exp := now + expiresIn }

/-- The `req.user` object attached by `verifyAuth` on success. -/
structure ReqUser where
  uid : String
  email : Option String
  leaderUserId : String
  teamId : String
deriving Repr, DecidableEq

/-- Outcome of the `verifyAuth` middleware: an error response with HTTP
status, `error` and `details` strings, or success with `req.user` attached. -/
inductive VerifyOutcome where
  | err (status : Nat) (error : String) (details : String)
  | ok (user : ReqUser)
deriving Repr, DecidableEq

/-- `verifyAuth` from src/middlewares (the Bearer-aware version wired into the
routes), from the point where the token has been extracted from the
`Authorization` header or the session cookie: missing token, missing
`JWT_SECRET`, the two `jwt.verify` failure modes, the payload-field check
`!decoded.uid || !decoded.teamId`, and on success the `req.user` object with
`leaderUserId: decoded.leaderUserId || decoded.uid`. -/
def verifyAuth (token? : Option Token) (jwtSecret? : Option String) (now : Nat) :
    VerifyOutcome :=
  match token? with
  | none =>
      .err 401 "Unauthorized"
        "No session token found. Please login first. Send as `Authorization: Bearer <token>` for localStorage flows."
  | some token =>
      match jwtSecret? with
      | none => .err 500 "Server configuration error" "JWT secret is not configured"
      | some jwtSecret =>
          match jwtVerify token jwtSecret now with
          | .error .jsonWebTokenError =>
              .err 401 "Unauthorized" "Invalid session token. Please login again."
          | .error .tokenExpiredError =>
              .err 401 "Unauthorized" "Session token has expired. Please login again."
          | .ok decoded =>
              if jsFalsy decoded.uid || jsFalsy decoded.teamId then
                .err 401 "Unauthorized" "Invalid token payload. Please login again."
              else
                .ok { uid := (decoded.uid).getD ""
                      email := decoded.email
                      leaderUserId :=
                        if jsFalsy decoded.leaderUserId then (decoded.uid).getD ""
                        else (decoded.leaderUserId).getD ""
                      teamId := (decoded.teamId).getD "" }

/-! ## Login / credential issuance (authenticateUser,
src/controllers/user_controllers.js) -/

/-- The test of the source regex `/^[^\s@]+@[^\s@]+\.[^\s@]+$/`: the string
splits at its first `@` into a nonempty atom, and a nonempty remainder free of
`@` and whitespace containing a `.` that is neither its first nor its last
character. -/
def emailRegexTest (s : String) : Bool :=
  let atom : Char → Bool := fun c => !jsRegexSpace c && c ≠ '@'
  let cs := s.data
  let a := cs.takeWhile (fun c => c ≠ '@')
  match cs.dropWhile (fun c => c ≠ '@') with
  | [] => false
  | _ :: r =>
      !a.isEmpty && a.all atom && !r.isEmpty && r.all atom
        && ((r.drop 1).dropLast).contains '.'

/-- The Firebase Auth lookup `auth.getUser(uid)` as an abstract map: `none`
models "user not found" (the thrown error); `some e?` a user record whose
`email` field is `e?` (itself possibly absent). -/
def AuthLookup := String → Option (Option String)

/-- Outcome of `authenticateUser`: an error response, or the 200 body carrying
the sanitized uid and email, the teamId, the signed token and `expiresIn`. -/
inductive AuthOutcome where
  | err (status : Nat) (error : String)
  | ok (uid email teamId : String) (token : Token) (expiresIn : Nat)
deriving Repr, DecidableEq

/-- `authenticateUser` from src/controllers/user_controllers.js: presence and
type checks on `uid`/`email`, sanitization (trim, length caps, lowercase
email), the email-shape regex, the uid-length window [10, 128], the Firebase
Auth existence and email-match checks, the team-leader Firestore query, the
`status === "confirmed"` gate, the `JWT_SECRET` presence check, and finally
the 24-hour JWT.  Cookie computation does not affect the returned body and is
not modelled. -/
def authenticateUser (uidV emailV : JSVal) (authLookup : AuthLookup)
    (teamQuery : TeamQuery) (jwtSecret? : Option String) (now : Nat) : AuthOutcome :=
  if !uidV.truthy || !emailV.truthy then
    .err 400 "Missing required fields"
  else if !uidV.isString || !emailV.isString then
    .err 400 "Invalid input types"
  else
    let uid := match uidV with | .vStr s => s | _ => ""
    let email := match emailV with | .vStr s => s | _ => ""
    let sanitizedUid := sliceStr (jsTrim uid) 128
    let sanitizedEmail := sliceStr (jsToLower (jsTrim email)) 255
    if !emailRegexTest sanitizedEmail then
      .err 400 "Invalid email format"
    else if sanitizedUid.length < 10 || sanitizedUid.length > 128 then
      .err 400 "Invalid UID format"
    else
      match authLookup sanitizedUid with
      | none => .err 401 "Invalid user: User not found in Firebase Auth"
      | some recordEmail? =>
          if (recordEmail?.map jsToLower) ≠ some sanitizedEmail then
            .err 401 "Email does not match the user record"
          else
            match teamQuery sanitizedUid with
            | none => .err 403 "Only team leaders are allowed to login"
            | some teamDoc =>
                let teamId := jsOr teamDoc.data.teamId teamDoc.id
                let teamStatus := teamDoc.data.status
                if teamStatus ≠ some "confirmed" then
                  .err 403 "Registration not confirmed yet!"
                else
                  match jwtSecret? with
                  | none => .err 500 "Server configuration error"
                  | some jwtSecret =>
                      let expiresIn := 60 * 60 * 24
                      let token := jwtSign sanitizedUid sanitizedEmail sanitizedUid
                        teamId jwtSecret now expiresIn
                      .ok sanitizedUid sanitizedEmail teamId token expiresIn

/-! ## Content validation (validateSubmission, src/middlewares) -/

/-- The four request-body fields the submission route accepts. -/
structure Body where
  githubLink : JSVal
  pptLink : JSVal
  videoLink : JSVal
  description : JSVal
deriving Repr, DecidableEq

/-- The WHATWG `new URL(s)` call as an abstract oracle: `none` models the
constructor throwing, `some p` a parse whose `protocol` is `p` (e.g.
`"https:"`). -/
def URLOracle := String → Option String

/-- `sanitizeString` from src/middlewares: non-strings become `''`; strings
are trimmed, cut to `maxLength`, and stripped of `<` and `>`. -/
def sanitizeString (v : JSVal) (maxLength : Nat) : String :=
  match v with
  | .vStr s => String.mk (((sliceStr (jsTrim s) maxLength).data).filter
      (fun c => !(c = '<' || c = '>')))
  | _ => ""

/-- The per-link-field block of `validateSubmission`: emptiness/type check,
then the 2048-character cap, then the URL parse and the http/https protocol
check — pushing at most one message, the first applicable one. -/
def validateLink (urlOracle : URLOracle) (name : String) (v : JSVal) : List String :=
  match v with
  | .vStr s =>
      if jsTrim s = "" then [name ++ " is required and must be a non-empty string"]
      else
        let trimmed := jsTrim s
        if trimmed.length > 2048 then
          [name ++ " must be less than 2048 characters"]
        else
          match urlOracle trimmed with
          | none => [name ++ " must be a valid URL"]
          | some protocol =>
              if protocol = "http:" || protocol = "https:" then []
              else [name ++ " must use http or https protocol"]
  | _ => [name ++ " is required and must be a non-empty string"]

/-- The description block of `validateSubmission`: emptiness/type check, then
the 5000-character cap. -/
def validateDescription (v : JSVal) : List String :=
  match v with
  | .vStr s =>
      if jsTrim s = "" then ["description is required and must be a non-empty string"]
      else if (jsTrim s).length > 5000 then
        ["description must be less than 5000 characters"]
      else []
  | _ => ["description is required and must be a non-empty string"]

/-- Outcome of the `validateSubmission` middleware: the aggregated 400
response, or `next()` with the sanitized body. -/
inductive ValidateOutcome where
  | err (status : Nat) (error : String) (details : List String)
  | ok (body : Body)
deriving Repr, DecidableEq

/-- `validateSubmission` from src/middlewares: the three link fields and the
description are each validated independently, their messages pushed into one
`errors` array in source order; a nonempty array yields a single
`400 Validation failed` response with all details, otherwise every field is
sanitized and control passes on. -/
def validateSubmission (urlOracle : URLOracle) (b : Body) : ValidateOutcome :=
  let errors :=
    validateLink urlOracle "githubLink" b.githubLink
      ++ validateLink urlOracle "pptLink" b.pptLink
      ++ validateLink urlOracle "videoLink" b.videoLink
      ++ validateDescription b.description
  if errors = [] then
    .ok { githubLink := .vStr (sanitizeString b.githubLink 2048)
          pptLink := .vStr (sanitizeString b.pptLink 2048)
          videoLink := .vStr (sanitizeString b.videoLink 2048)
          description := .vStr (sanitizeString b.description 5000) }
  else
    .err 400 "Validation failed" errors

/-! ## Submission workflow (submitTeamData and getSubmission,
src/controllers/user_controllers.js) -/

/-- Outcome of `submitTeamData`: an error response; the 200 `isExisting: true`
replay of the stored row; or the 201 `isExisting: false` response carrying the
freshly built submission. -/
inductive SubmitOutcome where
  | err (status : Nat) (error : String)
  | existing (data : SubmissionData)
  | created (data : NewSubmission)
deriving Repr, DecidableEq

/-- `submitTeamData` from src/controllers/user_controllers.js: the session-uid
check, the Firestore team lookup, the `members[0]` leader extraction, the
`|| ''` / `|| teamDoc.id` defaults of the team and leader fields, the
`findRowByTeamId` idempotence check (returning the stored row unchanged), and
otherwise the construction and append of the new row.  Returns the response
together with the resulting sheet state. -/
def submitTeamData (user : ReqUser) (body : Body) (teamQuery : TeamQuery)
    (nowStr : String) (sheet : List (List String)) :
    SubmitOutcome × List (List String) :=
  if user.uid = "" then
    (.err 401 "Unauthorized: User ID not found in session", sheet)
  else
    match teamQuery user.uid with
    | none => (.err 404 "Team registration not found", sheet)
    | some teamDoc =>
        let teamData := teamDoc.data
        let leader? : Option Member :=
          match teamData.members with
          | some (m :: _) => some m
          | _ => none
        match leader? with
        | none => (.err 404 "Leader information not found in team data", sheet)
        | some leader =>
            let teamName := jsOr teamData.teamName ""
            let teamIdFromDB := jsOr teamData.teamId teamDoc.id
            let leaderName := jsOr leader.name ""
            let leaderPhone := jsOr leader.phoneNumber ""
            let leaderEmail := jsOr leader.email ""
            match findRowByTeamId teamIdFromDB sheet with
            | some existingSubmission => (.existing existingSubmission.data, sheet)
            | none =>
                let submissionData : NewSubmission :=
                  { submissionTime := nowStr, teamName := teamName,
                    teamId := teamIdFromDB, leaderName := leaderName,
                    leaderPhone := leaderPhone, leaderEmail := leaderEmail,
                    githubLink := body.githubLink, pptLink := body.pptLink,
                    videoLink := body.videoLink, description := body.description }
                (.created submissionData, addRowToSheet submissionData sheet)

/-- Outcome of `getSubmission`: an error response, or the 200 body with
`data` and `hasSubmission`. -/
inductive GetOutcome where
  | err (status : Nat) (error : String)
  | ok (data : Option SubmissionData) (hasSubmission : Bool)
deriving Repr, DecidableEq

/-- `getSubmission` from src/controllers/user_controllers.js: the session-uid
check, the Firestore team lookup, the `teamId || doc.id` default, then
`getSubmissionByTeamId`; a missing row is the 200 `data: null,
hasSubmission: false` response, not an error. -/
def getSubmission (user : ReqUser) (teamQuery : TeamQuery)
    (sheet : List (List String)) : GetOutcome :=
  if user.uid = "" then .err 401 "Unauthorized: User ID not found in session"
  else
    match teamQuery user.uid with
    | none => .err 404 "Team registration not found"
    | some teamDoc =>
        let teamIdFromDB := jsOr teamDoc.data.teamId teamDoc.id
        match getSubmissionByTeamId teamIdFromDB sheet with
        | none => .ok none false
        | some submission => .ok (some submission) true

/-- Outcome of the whole `/submit` pipeline after authentication: either the
validation middleware's 400 response, or the controller's outcome. -/
inductive PipelineOutcome where
  | invalid (status : Nat) (error : String) (details : List String)
  | done (outcome : SubmitOutcome)
deriving Repr, DecidableEq

/-- The route `post("/submit", verifyAuth, validateSubmission, submitTeamData)`
after authentication: validation runs first, touching no store state; only a
valid body reaches the controller. -/
def submitPipeline (urlOracle : URLOracle) (user : ReqUser) (b : Body)
    (teamQuery : TeamQuery) (nowStr : String) (sheet : List (List String)) :
    PipelineOutcome × List (List String) :=
  match validateSubmission urlOracle b with
  | .err s e d => (.invalid s e d, sheet)
  | .ok b' =>
      let r := submitTeamData user b' teamQuery nowStr sheet
      (.done r.1, r.2)

/-! ## Spec-side validity predicates and concrete fixtures -/

/-- Spec-side validity of a link field, written from the spec words: a
non-empty string of at most 2048 characters that parses as an absolute URL
whose scheme is http or https.  Compared against `validateLink` in the
validation theorems. -/
def linkOK (urlOracle : URLOracle) (v : JSVal) : Bool :=
  match v with
  | .vStr s =>
      if jsTrim s = "" then false
      else if (jsTrim s).length > 2048 then false
      else
        match urlOracle (jsTrim s) with
        | some p => p = "http:" || p = "https:"
        | none => false
  | _ => false

/-- Spec-side validity of the description field: a non-empty string of at
most 5000 characters. -/
def descriptionOK (v : JSVal) : Bool :=
  match v with
  | .vStr s =>
      if jsTrim s = "" then false
      else if (jsTrim s).length > 5000 then false
      else true
  | _ => false

/-- Whether `m` is a validation message for the field named `tag` (the
source prefixes every message with the field name). -/
def hasTag (tag m : String) : Bool := tag.data.isPrefixOf m.data

/-- Whether two strings visibly differ in their first character (used to
separate the four field names, whose first characters are pairwise
distinct). -/
def firstCharNe (a b : String) : Bool :=
  match a.data, b.data with
  | c :: _, d :: _ => c != d
  | _, _ => false

/-- Scheme finder for `demoURL`: the characters before the first `://`,
accumulated in reverse. -/
def demoScheme : List Char → List Char → Option String
  | ':' :: '/' :: '/' :: _, acc =>
      if acc.isEmpty then none else some (String.mk (acc.reverse ++ [':']))
  | c :: rest, acc => demoScheme rest (c :: acc)
  | [], _ => none

/-- A small concrete model of the WHATWG URL parser, used only to instantiate
witnesses: a string of the shape `scheme://rest` parses with protocol
`scheme:`; anything else throws. -/
def demoURL : URLOracle := fun s => demoScheme s.data []

/-- A sheet with a header row and two data rows sharing teamId `T1`
(the duplicate-row situation of the check-then-append race). -/
def dupSheet : List (List String) :=
  [["header"],
   ["t1", "TeamA", "T1", "L1", "P1", "E1", "g1", "p1", "v1", "d1"],
   ["t2", "TeamB", "T1", "L2", "P2", "E2", "g2", "p2", "v2", "d2"]]

/-- A `req.user` fixture. -/
def userW : ReqUser := { uid := "u1", email := some "e@x.y", leaderUserId := "u1", teamId := "T1" }

/-- A valid body fixture (all three links parse as https under `demoURL`). -/
def bodyW : Body :=
  { githubLink := .vStr "https://github.com/x/y", pptLink := .vStr "https://docs.example/p",
    videoLink := .vStr "https://youtu.be/v", description := .vStr "demo" }

/-- A fully populated confirmed team document fixture. -/
def docW : TeamDoc :=
  { id := "D1",
    data := { teamId := some "T1", teamName := some "TeamA", status := some "confirmed",
              members := some [{ name := some "L1", phoneNumber := some "P1", email := some "E1" }] } }

/-- A confirmed team document with an empty members array. -/
def docNoLeader : TeamDoc :=
  { id := "D2",
    data := { teamId := some "T2", teamName := some "TeamB", status := some "confirmed",
              members := some [] } }

/-- A confirmed team document whose metadata fields are all absent: no
`teamId`, no `teamName`, and a leader with no name, phone or email. -/
def docBare : TeamDoc :=
  { id := "D3",
    data := { teamId := none, teamName := none, status := some "confirmed",
              members := some [{ name := none, phoneNumber := none, email := none }] } }

/-- A confirmed team document with a partial pattern of absence: `teamName`
present but `teamId` absent, and a leader with a name and email but no phone
number. -/
def docPartial : TeamDoc :=
  { id := "D5",
    data := { teamId := none, teamName := some "TeamE", status := some "confirmed",
              members := some [{ name := some "L5", phoneNumber := none, email := some "E5" }] } }

/-- A team document whose status is `pending`, not `confirmed`. -/
def docPending : TeamDoc :=
  { id := "D4",
    data := { teamId := some "T4", teamName := some "TeamD", status := some "pending",
              members := some [] } }

/-- A well-formed token fixture signed with `s3cret`, expiring at 86400. -/
def tokW : Token :=
  { uid := some "abcdefghij1234567890", email := some "leader@example.com",
    leaderUserId := some "abcdefghij1234567890", teamId := some "T1",
    secret := "s3cret", exp := 86400 }

/-- A token signed with a different secret (tampered / foreign signature). -/
def tokBadSig : Token :=
  { uid := some "abcdefghij1234567890", email := some "leader@example.com",
    leaderUserId := some "abcdefghij1234567890", teamId := some "T1",
    secret := "wrong", exp := 86400 }

/-- A validly signed, unexpired token whose payload lacks `teamId`. -/
def tokNoTeam : Token :=
  { uid := some "abcdefghij1234567890", email := some "leader@example.com",
    leaderUserId := some "abcdefghij1234567890", teamId := none,
    secret := "s3cret", exp := 86400 }

/-- A 2049-character link: one character over the 2048 cap, and not a URL. -/
def longA : String := String.mk (List.replicate 2049 'a')

/-- Counterexample body for the validation claim: `githubLink` violates both
the length-cap sub-rule and the absolute-URL sub-rule; the other three fields
are valid. -/
def cexBody : Body :=
  { githubLink := .vStr longA, pptLink := .vStr "https://docs.example/p",
    videoLink := .vStr "https://youtu.be/v", description := .vStr "demo" }

/-- The aggregation example body of the spec: three fields broken in three
different ways. -/
def cexAgg : Body :=
  { githubLink := .vStr "not-a-url", pptLink := .vStr "",
    videoLink := .vStr "ftp://x", description := .vStr "ok" }

/-! ## Helper lemmas -/

/-- A list is a prefix of itself followed by anything. -/
theorem isPrefixOf_append_self (l m : List Char) : l.isPrefixOf (l ++ m) = true := by
  induction l with
  | nil => simp
  | cons c cs ih => simp [List.isPrefixOf_cons₂, ih]

/-- A message built as `tag ++ suffix` carries the tag. -/
theorem hasTag_append (tag m : String) : hasTag tag (tag ++ m) = true := by
  have hd : (tag ++ m).data = tag.data ++ m.data := rfl
  unfold hasTag
  rw [hd]
  exact isPrefixOf_append_self _ _

/-- A message built from a field name with a different first character does
not carry the tag. -/
theorem hasTag_append_of_ne (tag name m : String) (h : firstCharNe tag name = true) :
    hasTag tag (name ++ m) = false := by
  have hd : (name ++ m).data = name.data ++ m.data := rfl
  unfold hasTag
  rw [hd]
  unfold firstCharNe at h
  revert h
  cases tag.data with
  | nil => intro h; simp at h
  | cons c cs =>
      cases name.data with
      | nil => intro h; simp at h
      | cons d ds =>
          intro h
          have hcd : (c == d) = false := by simpa [bne] using h
          simp [List.isPrefixOf_cons₂, hcd]

/-- The per-field link validation block emits no message exactly when the
field satisfies the spec-side `linkOK`, and otherwise exactly one message,
prefixed by the field name — the first violated sub-rule in source order. -/
theorem validateLink_shape (o : URLOracle) (name : String) (v : JSVal) :
    (linkOK o v = true ∧ validateLink o name v = []) ∨
    (linkOK o v = false ∧ ∃ msg, validateLink o name v = [name ++ msg]) := by
  cases v with
  | vStr s =>
      by_cases h1 : jsTrim s = ""
      · exact Or.inr ⟨by simp [linkOK, h1],
          ⟨" is required and must be a non-empty string", by simp [validateLink, h1]⟩⟩
      · by_cases h2 : (jsTrim s).length > 2048
        · exact Or.inr ⟨by simp [linkOK, h1, h2],
            ⟨" must be less than 2048 characters", by simp [validateLink, h1, h2]⟩⟩
        · cases ho : o (jsTrim s) with
          | none =>
              exact Or.inr ⟨by simp [linkOK, h1, h2, ho],
                ⟨" must be a valid URL", by simp [validateLink, h1, h2, ho]⟩⟩
          | some p =>
              by_cases hp : (p = "http:" || p = "https:") = true
              · exact Or.inl ⟨by simp [linkOK, h1, h2, ho, hp],
                  by simp [validateLink, h1, h2, ho, hp]⟩
              · exact Or.inr ⟨by simp [linkOK, h1, h2, ho, hp],
                  ⟨" must use http or https protocol", by simp [validateLink, h1, h2, ho, hp]⟩⟩
  | vNum n => exact Or.inr ⟨rfl, ⟨_, rfl⟩⟩
  | vBool b => exact Or.inr ⟨rfl, ⟨_, rfl⟩⟩
  | vAbsent => exact Or.inr ⟨rfl, ⟨_, rfl⟩⟩

/-- The description validation block emits no message exactly when the field
satisfies the spec-side `descriptionOK`, and otherwise exactly one message,
prefixed by the field name. -/
theorem validateDescription_shape (v : JSVal) :
    (descriptionOK v = true ∧ validateDescription v = []) ∨
    (descriptionOK v = false ∧ ∃ msg, validateDescription v = ["description" ++ msg]) := by
  cases v with
  | vStr s =>
      by_cases h1 : jsTrim s = ""
      · exact Or.inr ⟨by simp [descriptionOK, h1],
          ⟨" is required and must be a non-empty string",
            by simp [validateDescription, h1]⟩⟩
      · by_cases h2 : (jsTrim s).length > 5000
        · exact Or.inr ⟨by simp [descriptionOK, h1, h2],
            ⟨" must be less than 5000 characters",
              by simp [validateDescription, h1, h2]⟩⟩
        · exact Or.inl ⟨by simp [descriptionOK, h1, h2],
            by simp [validateDescription, h1, h2]⟩
  | vNum n => exact Or.inr ⟨rfl, ⟨_, rfl⟩⟩
  | vBool b => exact Or.inr ⟨rfl, ⟨_, rfl⟩⟩
  | vAbsent => exact Or.inr ⟨rfl, ⟨_, rfl⟩⟩

/-- An empty link-error list means the field is valid. -/
theorem linkOK_of_validateLink_nil (o : URLOracle) (name : String) (v : JSVal)
    (hnil : validateLink o name v = []) : linkOK o v = true := by
  rcases validateLink_shape o name v with ⟨hok, _⟩ | ⟨_, _, heq⟩
  · exact hok
  · rw [heq] at hnil; exact absurd hnil (by simp)

/-- An empty description-error list means the field is valid. -/
theorem descriptionOK_of_validateDescription_nil (v : JSVal)
    (hnil : validateDescription v = []) : descriptionOK v = true := by
  rcases validateDescription_shape v with ⟨hok, _⟩ | ⟨_, _, heq⟩
  · exact hok
  · rw [heq] at hnil; exact absurd hnil (by simp)

/-- The link block contributes exactly one message tagged with its own field
name when the field is invalid, none when valid. -/
theorem countP_validateLink_self (o : URLOracle) (name : String) (v : JSVal) :
    (validateLink o name v).countP (fun m => hasTag name m)
      = if linkOK o v then 0 else 1 := by
  rcases validateLink_shape o name v with ⟨hok, hnil⟩ | ⟨hbad, msg, heq⟩
  · rw [hnil, hok]; rfl
  · rw [heq, hbad]; simp [List.countP_cons, hasTag_append]

/-- The link block contributes no message tagged with a different field
name. -/
theorem countP_validateLink_other (o : URLOracle) (name tag : String) (v : JSVal)
    (h : firstCharNe tag name = true) :
    (validateLink o name v).countP (fun m => hasTag tag m) = 0 := by
  rcases validateLink_shape o name v with ⟨_, hnil⟩ | ⟨_, msg, heq⟩
  · rw [hnil]; rfl
  · rw [heq]; simp [List.countP_cons, hasTag_append_of_ne tag name msg h]

/-- The description block contributes exactly one self-tagged message when
invalid, none when valid. -/
theorem countP_validateDescription_self (v : JSVal) :
    (validateDescription v).countP (fun m => hasTag "description" m)
      = if descriptionOK v then 0 else 1 := by
  rcases validateDescription_shape v with ⟨hok, hnil⟩ | ⟨hbad, msg, heq⟩
  · rw [hnil, hok]; rfl
  · rw [heq, hbad]; simp [List.countP_cons, hasTag_append]

/-- The description block contributes no message tagged with a link field
name. -/
theorem countP_validateDescription_other (tag : String) (v : JSVal)
    (h : firstCharNe tag "description" = true) :
    (validateDescription v).countP (fun m => hasTag tag m) = 0 := by
  rcases validateDescription_shape v with ⟨_, hnil⟩ | ⟨_, msg, heq⟩
  · rw [hnil]; rfl
  · rw [heq]; simp [List.countP_cons, hasTag_append_of_ne tag "description" msg h]

/-- Dropping whitespace from a run of `a` characters is the identity. -/
theorem dropWhile_space_replicate_a (n : Nat) :
    (List.replicate n 'a').dropWhile jsRegexSpace = List.replicate n 'a' := by
  cases n with
  | zero => rfl
  | succ k => rw [List.replicate_succ, List.dropWhile_cons_of_neg (by decide)]

/-- Trimming the all-`a` string is the identity. -/
theorem jsTrim_longA : jsTrim longA = longA := by
  show String.mk ((((List.replicate 2049 'a').dropWhile jsRegexSpace).reverse.dropWhile
    jsRegexSpace).reverse) = longA
  rw [dropWhile_space_replicate_a, List.reverse_replicate, dropWhile_space_replicate_a,
    List.reverse_replicate]
  rfl

/-- The all-`a` string has length 2049. -/
theorem longA_length : longA.length = 2049 := by
  show (List.replicate 2049 'a').length = 2049
  rw [List.length_replicate]

/-- The demo URL parser throws on any run of `a` characters. -/
theorem demoScheme_replicate_a (n : Nat) :
    ∀ acc, demoScheme (List.replicate n 'a') acc = none := by
  induction n with
  | zero => intro acc; rfl
  | succ k ih => intro acc; rw [List.replicate_succ]; simpa [demoScheme] using ih ('a' :: acc)

/-- A sliced string is no longer than the slice bound. -/
theorem sliceStr_length_le (s : String) (n : Nat) : (sliceStr s n).length ≤ n := by
  have h : (sliceStr s n).length = (s.data.take n).length := rfl
  rw [h, List.length_take]
  exact Nat.min_le_left n s.data.length

/-- The scan loop of `findRowByTeamId` returns the first match: if the row at
index `k` matches and no earlier row does, the loop started at counter `i`
stops there with row number `i + k + 1`. -/
theorem findRowAux_first (teamId : String) :
    ∀ (rows : List (List String)) (i k : Nat) (row : List String),
      rows.get? k = some row → row.get? 2 = some teamId →
      (∀ j row', j < k → rows.get? j = some row' → row'.get? 2 ≠ some teamId) →
      findRowAux teamId rows i = some ⟨i + k + 1, rowToData row⟩ := by
  intro rows
  induction rows with
  | nil => intro i k row hk; simp [List.get?] at hk
  | cons r rest ih =>
      intro i k row hk hmatch hfirst
      cases k with
      | zero =>
          simp [List.get?] at hk
          subst hk
          unfold findRowAux
          rw [if_pos hmatch]
      | succ k' =>
          have hr : r.get? 2 ≠ some teamId := hfirst 0 r (Nat.succ_pos k') rfl
          have htail : findRowAux teamId rest (i + 1) = some ⟨(i + 1) + k' + 1, rowToData row⟩ :=
            ih (i + 1) k' row hk hmatch
              (fun j row' hj hg => hfirst (j + 1) row' (Nat.succ_lt_succ hj) hg)
          have harith : (i + 1) + k' + 1 = i + (k' + 1) + 1 := by omega
          rw [harith] at htail
          unfold findRowAux
          rw [if_neg hr]
          exact htail

/-! ## Claim theorems -/

/-- C9: the store lookup scans the data rows (the rows after the header) top
to bottom and returns the first (lowest-indexed) row whose team-id column
equals the key — so when duplicate rows for one teamId exist, both the
Submit-side `findRowByTeamId` and the Retrieve-side `getSubmissionByTeamId`
deterministically return the earliest-appended submission. -/
theorem store_lookup_returns_first_match (teamId : String) (header row : List String)
    (rows : List (List String)) (k : Nat)
    (hk : rows.get? k = some row) (hmatch : row.get? 2 = some teamId)
    (hfirst : ∀ j row', j < k → rows.get? j = some row' → row'.get? 2 ≠ some teamId) :
    findRowByTeamId teamId (header :: rows) = some ⟨k + 2, rowToData row⟩ ∧
    getSubmissionByTeamId teamId (header :: rows) = some (rowToData row) := by
  have hfind : findRowByTeamId teamId (header :: rows) = some ⟨k + 2, rowToData row⟩ := by
    unfold findRowByTeamId
    have hlen : k < rows.length := by
      by_contra hge
      rw [List.get?_eq_none.mpr (Nat.le_of_not_lt hge)] at hk
      exact Option.noConfusion hk
    rw [if_neg (by simp; omega)]
    have h := findRowAux_first teamId rows 1 k row hk hmatch hfirst
    have harith : 1 + k + 1 = k + 2 := by omega
    rw [harith] at h
    simpa using h
  exact ⟨hfind, by simp [getSubmissionByTeamId, hfind]⟩

/-- Closed witness for C9 on `dupSheet`: with two rows keyed `T1`, both
lookups return the first one. -/
theorem store_lookup_returns_first_match_witness :
    findRowByTeamId "T1" dupSheet
      = some ⟨2, rowToData ["t1", "TeamA", "T1", "L1", "P1", "E1", "g1", "p1", "v1", "d1"]⟩ ∧
    getSubmissionByTeamId "T1" dupSheet
      = some (rowToData ["t1", "TeamA", "T1", "L1", "P1", "E1", "g1", "p1", "v1", "d1"]) :=
  store_lookup_returns_first_match "T1" ["header"]
    ["t1", "TeamA", "T1", "L1", "P1", "E1", "g1", "p1", "v1", "d1"]
    [["t1", "TeamA", "T1", "L1", "P1", "E1", "g1", "p1", "v1", "d1"],
     ["t2", "TeamB", "T1", "L2", "P2", "E2", "g2", "p2", "v2", "d2"]] 0
    rfl rfl (fun j _ hj _ => absurd hj (Nat.not_lt_zero j))

/-- C1: once a row keyed by the team's id exists in the Submission Store, a
later Submit by that team's leader with any valid content payload (possibly
different from the first) replays the stored row's content unchanged — the
200 `isExisting: true` response — and appends nothing: the sheet is returned
unchanged. -/
theorem submit_is_idempotent (urlOracle : URLOracle) (user : ReqUser) (b b' : Body)
    (teamQuery : TeamQuery) (nowStr : String) (sheet : List (List String))
    (teamDoc : TeamDoc) (m : Member) (ms : List Member) (r : FoundRow)
    (huid : user.uid ≠ "")
    (hteam : teamQuery user.uid = some teamDoc)
    (hmembers : teamDoc.data.members = some (m :: ms))
    (hvalid : validateSubmission urlOracle b = .ok b')
    (hrow : findRowByTeamId (jsOr teamDoc.data.teamId teamDoc.id) sheet = some r) :
    submitPipeline urlOracle user b teamQuery nowStr sheet
      = (.done (.existing r.data), sheet) := by
  unfold submitPipeline
  rw [hvalid]
  simp [submitTeamData, huid, hteam, hmembers, hrow]

/-- Closed witness for C1: resubmitting a different valid payload over
`dupSheet` replays the stored first row and leaves the sheet unchanged. -/
theorem submit_is_idempotent_witness :
    submitPipeline demoURL userW bodyW (fun _ => some docW) "2024-01-15 14:30:45" dupSheet
      = (.done (.existing (rowToData
          ["t1", "TeamA", "T1", "L1", "P1", "E1", "g1", "p1", "v1", "d1"])), dupSheet) :=
  submit_is_idempotent demoURL userW bodyW bodyW (fun _ => some docW) "2024-01-15 14:30:45"
    dupSheet docW { name := some "L1", phoneNumber := some "P1", email := some "E1" } []
    ⟨2, rowToData ["t1", "TeamA", "T1", "L1", "P1", "E1", "g1", "p1", "v1", "d1"]⟩
    (by decide) rfl rfl (by decide) (by decide)

/-- C8: for an authenticated leader whose team record exists in the directory
but has no row in the Submission Store, Retrieve responds 200 with
`data: null` and `hasSubmission: false` — absence is not an error. -/
theorem retrieve_absent_is_null (user : ReqUser) (teamQuery : TeamQuery)
    (sheet : List (List String)) (teamDoc : TeamDoc)
    (huid : user.uid ≠ "") (hteam : teamQuery user.uid = some teamDoc)
    (hnone : findRowByTeamId (jsOr teamDoc.data.teamId teamDoc.id) sheet = none) :
    getSubmission user teamQuery sheet = .ok none false := by
  simp [getSubmission, huid, hteam, getSubmissionByTeamId, hnone]

/-- Closed witness for C8: Retrieve on a header-only sheet yields the null
success response. -/
theorem retrieve_absent_is_null_witness :
    getSubmission userW (fun _ => some docW) [["header"]] = .ok none false :=
  retrieve_absent_is_null userW (fun _ => some docW) [["header"]] docW
    (by decide) rfl (by decide)

/-- C10: Submit tolerates missing team metadata — with a nonempty members
list, any pattern of absence among `teamName`, the `teamId` field, and the
leader's `name`, `phoneNumber` and `email` causes no error: the submission is
built and appended, substituting the empty string for each field that is
missing and the directory document id for a missing `teamId`; only an empty
or absent members list fails, with the 404 leader-not-found error. -/
theorem submit_tolerates_missing_metadata (user : ReqUser) (b : Body)
    (teamQuery : TeamQuery) (nowStr : String) (sheet : List (List String))
    (teamDoc : TeamDoc)
    (huid : user.uid ≠ "") (hteam : teamQuery user.uid = some teamDoc) :
    ((teamDoc.data.members = none ∨ teamDoc.data.members = some []) →
      submitTeamData user b teamQuery nowStr sheet
        = (.err 404 "Leader information not found in team data", sheet)) ∧
    (∀ m ms, teamDoc.data.members = some (m :: ms) →
      findRowByTeamId (jsOr teamDoc.data.teamId teamDoc.id) sheet = none →
      ∃ sub : NewSubmission,
        submitTeamData user b teamQuery nowStr sheet
          = (.created sub, addRowToSheet sub sheet) ∧
        sub.submissionTime = nowStr ∧
        (teamDoc.data.teamName = none → sub.teamName = "") ∧
        (teamDoc.data.teamId = none → sub.teamId = teamDoc.id) ∧
        (m.name = none → sub.leaderName = "") ∧
        (m.phoneNumber = none → sub.leaderPhone = "") ∧
        (m.email = none → sub.leaderEmail = "") ∧
        sub.githubLink = b.githubLink ∧ sub.pptLink = b.pptLink ∧
        sub.videoLink = b.videoLink ∧ sub.description = b.description) := by
  constructor
  · intro hm
    rcases hm with hm | hm <;> simp [submitTeamData, huid, hteam, hm]
  · intro m ms hm hrow
    refine ⟨{ submissionTime := nowStr, teamName := jsOr teamDoc.data.teamName "",
              teamId := jsOr teamDoc.data.teamId teamDoc.id,
              leaderName := jsOr m.name "", leaderPhone := jsOr m.phoneNumber "",
              leaderEmail := jsOr m.email "",
              githubLink := b.githubLink, pptLink := b.pptLink,
              videoLink := b.videoLink, description := b.description },
      ?_, rfl, ?_, ?_, ?_, ?_, ?_, rfl, rfl, rfl, rfl⟩
    · simp [submitTeamData, huid, hteam, hm, hrow]
    · intro hn; rw [hn]; rfl
    · intro hn; rw [hn]; rfl
    · intro hn; rw [hn]; rfl
    · intro hn; rw [hn]; rfl
    · intro hn; rw [hn]; rfl

/-- Closed witness for C10: the empty-members document fails with 404; the
all-fields-absent document and the partially-bare document (name and email
present, phone and teamId absent) both submit successfully, substituting the
empty string exactly for their missing fields. -/
theorem submit_tolerates_missing_metadata_witness :
    (submitTeamData userW bodyW (fun _ => some docNoLeader) "2024-01-15 14:30:45" dupSheet
      = (.err 404 "Leader information not found in team data", dupSheet)) ∧
    (∃ sub : NewSubmission,
      submitTeamData userW bodyW (fun _ => some docBare) "2024-01-15 14:30:45" [["header"]]
        = (.created sub, addRowToSheet sub [["header"]]) ∧
      sub.submissionTime = "2024-01-15 14:30:45" ∧
      (docBare.data.teamName = none → sub.teamName = "") ∧
      (docBare.data.teamId = none → sub.teamId = docBare.id) ∧
      (Member.name { name := none, phoneNumber := none, email := none } = none →
        sub.leaderName = "") ∧
      (Member.phoneNumber { name := none, phoneNumber := none, email := none } = none →
        sub.leaderPhone = "") ∧
      (Member.email { name := none, phoneNumber := none, email := none } = none →
        sub.leaderEmail = "") ∧
      sub.githubLink = bodyW.githubLink ∧ sub.pptLink = bodyW.pptLink ∧
      sub.videoLink = bodyW.videoLink ∧ sub.description = bodyW.description) ∧
    (∃ sub : NewSubmission,
      submitTeamData userW bodyW (fun _ => some docPartial) "2024-01-15 14:30:45" [["header"]]
        = (.created sub, addRowToSheet sub [["header"]]) ∧
      sub.submissionTime = "2024-01-15 14:30:45" ∧
      (docPartial.data.teamName = none → sub.teamName = "") ∧
      (docPartial.data.teamId = none → sub.teamId = docPartial.id) ∧
      (Member.name { name := some "L5", phoneNumber := none, email := some "E5" } = none →
        sub.leaderName = "") ∧
      (Member.phoneNumber { name := some "L5", phoneNumber := none, email := some "E5" } = none →
        sub.leaderPhone = "") ∧
      (Member.email { name := some "L5", phoneNumber := none, email := some "E5" } = none →
        sub.leaderEmail = "") ∧
      sub.githubLink = bodyW.githubLink ∧ sub.pptLink = bodyW.pptLink ∧
      sub.videoLink = bodyW.videoLink ∧ sub.description = bodyW.description) :=
  ⟨(submit_tolerates_missing_metadata userW bodyW (fun _ => some docNoLeader)
      "2024-01-15 14:30:45" dupSheet docNoLeader (by decide) rfl).1 (Or.inr rfl),
   (submit_tolerates_missing_metadata userW bodyW (fun _ => some docBare)
      "2024-01-15 14:30:45" [["header"]] docBare (by decide) rfl).2
     { name := none, phoneNumber := none, email := none } [] rfl (by decide),
   (submit_tolerates_missing_metadata userW bodyW (fun _ => some docPartial)
      "2024-01-15 14:30:45" [["header"]] docPartial (by decide) rfl).2
     { name := some "L5", phoneNumber := none, email := some "E5" } [] rfl (by decide)⟩

/-- C4: when the identity checks pass but the team record's `status` is not
the string `confirmed`, Issue fails with the 403 Forbidden response and no
credential is produced — whatever the signing-secret configuration. -/
theorem issue_rejects_unconfirmed (uid0 email0 recordEmail : String)
    (authLookup : AuthLookup) (teamQuery : TeamQuery) (jwtSecret? : Option String)
    (now : Nat) (teamDoc : TeamDoc)
    (hu : uid0 ≠ "") (he : email0 ≠ "")
    (hre : emailRegexTest (sliceStr (jsToLower (jsTrim email0)) 255) = true)
    (hlen : 10 ≤ (sliceStr (jsTrim uid0) 128).length)
    (hauth : authLookup (sliceStr (jsTrim uid0) 128) = some (some recordEmail))
    (hmatch : jsToLower recordEmail = sliceStr (jsToLower (jsTrim email0)) 255)
    (hteam : teamQuery (sliceStr (jsTrim uid0) 128) = some teamDoc)
    (hstatus : teamDoc.data.status ≠ some "confirmed") :
    authenticateUser (.vStr uid0) (.vStr email0) authLookup teamQuery jwtSecret? now
      = .err 403 "Registration not confirmed yet!" := by
  have hle : (sliceStr (jsTrim uid0) 128).length ≤ 128 := sliceStr_length_le _ _
  have h1 : ¬ (sliceStr (jsTrim uid0) 128).length < 10 := by omega
  have h2 : ¬ (sliceStr (jsTrim uid0) 128).length > 128 := by omega
  simp [authenticateUser, JSVal.truthy, JSVal.isString, hu, he, hre, h1, h2,
    hauth, hmatch, hteam, hstatus]

/-- Closed witness for C4: a valid leader of the pending team `D4` is
rejected with 403. -/
theorem issue_rejects_unconfirmed_witness :
    authenticateUser (.vStr "abcdefghij1234567890") (.vStr "Leader@Example.com")
      (fun _ => some (some "Leader@Example.com")) (fun _ => some docPending)
      (some "s3cret") 0
      = .err 403 "Registration not confirmed yet!" :=
  issue_rejects_unconfirmed "abcdefghij1234567890" "Leader@Example.com"
    "Leader@Example.com" (fun _ => some (some "Leader@Example.com"))
    (fun _ => some docPending) (some "s3cret") 0 docPending
    (by decide) (by decide) (by decide) (by decide) rfl (by decide) rfl (by decide)

/-- C2: for every `(subjectId, email)` pair passing all issuance
preconditions with a confirmed team, Issue produces a credential which, when
verified with the same signing secret before its expiry, yields an identity
claim whose `uid` (subjectId) and `teamId` equal the values embedded at
issuance.  (`htid` records the Firestore guarantee that document ids are
nonempty, so the embedded teamId is a truthy string.) -/
theorem issue_verify_roundtrip (uid0 email0 recordEmail secret : String)
    (authLookup : AuthLookup) (teamQuery : TeamQuery) (teamDoc : TeamDoc)
    (now now2 : Nat)
    (hu : uid0 ≠ "") (he : email0 ≠ "")
    (hre : emailRegexTest (sliceStr (jsToLower (jsTrim email0)) 255) = true)
    (hlen : 10 ≤ (sliceStr (jsTrim uid0) 128).length)
    (hauth : authLookup (sliceStr (jsTrim uid0) 128) = some (some recordEmail))
    (hmatch : jsToLower recordEmail = sliceStr (jsToLower (jsTrim email0)) 255)
    (hteam : teamQuery (sliceStr (jsTrim uid0) 128) = some teamDoc)
    (hstatus : teamDoc.data.status = some "confirmed")
    (htid : jsOr teamDoc.data.teamId teamDoc.id ≠ "")
    (hexp : now2 < now + 60 * 60 * 24) :
    authenticateUser (.vStr uid0) (.vStr email0) authLookup teamQuery (some secret) now
      = .ok (sliceStr (jsTrim uid0) 128) (sliceStr (jsToLower (jsTrim email0)) 255)
          (jsOr teamDoc.data.teamId teamDoc.id)
          (jwtSign (sliceStr (jsTrim uid0) 128) (sliceStr (jsToLower (jsTrim email0)) 255)
            (sliceStr (jsTrim uid0) 128) (jsOr teamDoc.data.teamId teamDoc.id)
            secret now (60 * 60 * 24))
          (60 * 60 * 24) ∧
    verifyAuth
      (some (jwtSign (sliceStr (jsTrim uid0) 128) (sliceStr (jsToLower (jsTrim email0)) 255)
        (sliceStr (jsTrim uid0) 128) (jsOr teamDoc.data.teamId teamDoc.id)
        secret now (60 * 60 * 24)))
      (some secret) now2
      = .ok { uid := sliceStr (jsTrim uid0) 128,
              email := some (sliceStr (jsToLower (jsTrim email0)) 255),
              leaderUserId := sliceStr (jsTrim uid0) 128,
              teamId := jsOr teamDoc.data.teamId teamDoc.id } := by
  have hle : (sliceStr (jsTrim uid0) 128).length ≤ 128 := sliceStr_length_le _ _
  have h1 : ¬ (sliceStr (jsTrim uid0) 128).length < 10 := by omega
  have h2 : ¬ (sliceStr (jsTrim uid0) 128).length > 128 := by omega
  have hsu : sliceStr (jsTrim uid0) 128 ≠ "" := by
    intro hempty
    rw [hempty] at hlen
    simp [String.length] at hlen
  constructor
  · simp [authenticateUser, JSVal.truthy, JSVal.isString, hu, he, hre, h1, h2,
      hauth, hmatch, hteam, hstatus]
  · have hnle : ¬ (now + 60 * 60 * 24 ≤ now2) := by omega
    simp [verifyAuth, jwtVerify, jwtSign, jsFalsy, hsu, htid, hnle]

/-- Closed witness for C2: the spec example leader logs in against the
confirmed team `D1` and the issued token verifies back to the same identity. -/
theorem issue_verify_roundtrip_witness :
    authenticateUser (.vStr "abcdefghij1234567890") (.vStr "Leader@Example.com")
      (fun _ => some (some "Leader@Example.com")) (fun _ => some docW)
      (some "s3cret") 0
      = .ok "abcdefghij1234567890" "leader@example.com" "T1"
          (jwtSign "abcdefghij1234567890" "leader@example.com"
            "abcdefghij1234567890" "T1" "s3cret" 0 86400) 86400 ∧
    verifyAuth
      (some (jwtSign "abcdefghij1234567890" "leader@example.com"
        "abcdefghij1234567890" "T1" "s3cret" 0 86400)) (some "s3cret") 3600
      = .ok { uid := "abcdefghij1234567890", email := some "leader@example.com",
              leaderUserId := "abcdefghij1234567890", teamId := "T1" } :=
  issue_verify_roundtrip "abcdefghij1234567890" "Leader@Example.com"
    "Leader@Example.com" "s3cret" (fun _ => some (some "Leader@Example.com"))
    (fun _ => some docW) docW 0 3600
    (by decide) (by decide) (by decide) (by decide) rfl (by decide) rfl rfl
    (by decide) (by decide)

/-- C6: with the signing secret absent from the environment, Issue fails at
issuance time (after all identity and team checks succeed) with the 500
server-configuration error, and Verify of any presented token likewise fails
with the 500 configuration error. -/
theorem config_error_when_secret_missing (uid0 email0 recordEmail : String)
    (authLookup : AuthLookup) (teamQuery : TeamQuery) (teamDoc : TeamDoc)
    (now now2 : Nat) (token : Token)
    (hu : uid0 ≠ "") (he : email0 ≠ "")
    (hre : emailRegexTest (sliceStr (jsToLower (jsTrim email0)) 255) = true)
    (hlen : 10 ≤ (sliceStr (jsTrim uid0) 128).length)
    (hauth : authLookup (sliceStr (jsTrim uid0) 128) = some (some recordEmail))
    (hmatch : jsToLower recordEmail = sliceStr (jsToLower (jsTrim email0)) 255)
    (hteam : teamQuery (sliceStr (jsTrim uid0) 128) = some teamDoc)
    (hstatus : teamDoc.data.status = some "confirmed") :
    authenticateUser (.vStr uid0) (.vStr email0) authLookup teamQuery none now
      = .err 500 "Server configuration error" ∧
    verifyAuth (some token) none now2
      = .err 500 "Server configuration error" "JWT secret is not configured" := by
  have hle : (sliceStr (jsTrim uid0) 128).length ≤ 128 := sliceStr_length_le _ _
  have h1 : ¬ (sliceStr (jsTrim uid0) 128).length < 10 := by omega
  have h2 : ¬ (sliceStr (jsTrim uid0) 128).length > 128 := by omega
  exact ⟨by simp [authenticateUser, JSVal.truthy, JSVal.isString, hu, he, hre, h1, h2,
      hauth, hmatch, hteam, hstatus], rfl⟩

/-- Closed witness for C6: the confirmed leader of `D1` hits the 500
configuration error at issuance, and verification of a well-formed token
without a configured secret hits the same class of error. -/
theorem config_error_when_secret_missing_witness :
    authenticateUser (.vStr "abcdefghij1234567890") (.vStr "Leader@Example.com")
      (fun _ => some (some "Leader@Example.com")) (fun _ => some docW) none 0
      = .err 500 "Server configuration error" ∧
    verifyAuth (some tokW) none 0
      = .err 500 "Server configuration error" "JWT secret is not configured" :=
  config_error_when_secret_missing "abcdefghij1234567890" "Leader@Example.com"
    "Leader@Example.com" (fun _ => some (some "Leader@Example.com"))
    (fun _ => some docW) docW 0 0 tokW
    (by decide) (by decide) (by decide) (by decide) rfl (by decide) rfl rfl

/-- C5: Verify distinguishes its failure modes — a tampered or
foreign-signature token and an expired token both draw 401 Unauthorized
responses, but with distinct `details`, so the two causes are
distinguishable by the caller. -/
theorem verify_distinguishes_failure_modes (token : Token) (secret : String) (now : Nat) :
    (token.secret ≠ secret →
      verifyAuth (some token) (some secret) now
        = .err 401 "Unauthorized" "Invalid session token. Please login again.") ∧
    (token.secret = secret → token.exp ≤ now →
      verifyAuth (some token) (some secret) now
        = .err 401 "Unauthorized" "Session token has expired. Please login again.") ∧
    ("Invalid session token. Please login again." : String)
        ≠ "Session token has expired. Please login again." := by
  refine ⟨fun hsig => ?_, fun hsig hexp => ?_, by decide⟩
  · simp [verifyAuth, jwtVerify, hsig]
  · simp [verifyAuth, jwtVerify, hsig, hexp]

/-- Closed witness for C5: a wrong-secret token and an expired token produce
the two different 401 responses. -/
theorem verify_distinguishes_failure_modes_witness :
    verifyAuth (some tokBadSig) (some "s3cret") 0
      = .err 401 "Unauthorized" "Invalid session token. Please login again." ∧
    verifyAuth (some tokW) (some "s3cret") 86400
      = .err 401 "Unauthorized" "Session token has expired. Please login again." :=
  ⟨(verify_distinguishes_failure_modes tokBadSig "s3cret" 0).1 (by decide),
   (verify_distinguishes_failure_modes tokW "s3cret" 86400).2.1 rfl (by decide)⟩

/-- C7: a validly signed, unexpired token whose payload lacks `uid` (the
subject id) or `teamId` is rejected with the 401 invalid-payload response and
no identity claim is attached. -/
theorem verify_rejects_missing_payload_fields (token : Token) (secret : String)
    (now : Nat)
    (hsig : token.secret = secret) (hexp : now < token.exp)
    (hmissing : token.uid = none ∨ token.teamId = none) :
    verifyAuth (some token) (some secret) now
      = .err 401 "Unauthorized" "Invalid token payload. Please login again." := by
  have hnle : ¬ token.exp ≤ now := Nat.not_le.mpr hexp
  rcases hmissing with h | h <;> simp [verifyAuth, jwtVerify, jsFalsy, hsig, hnle, h]

/-- Closed witness for C7: a validly signed unexpired token with no `teamId`
claim is rejected as malformed payload. -/
theorem verify_rejects_missing_payload_fields_witness :
    verifyAuth (some tokNoTeam) (some "s3cret") 0
      = .err 401 "Unauthorized" "Invalid token payload. Please login again." :=
  verify_rejects_missing_payload_fields tokNoTeam "s3cret" 0 rfl (by decide) (Or.inr rfl)

/-- C3 counterexample: at `cexBody`, `githubLink` violates two sub-rules at
once — the 2048 length cap and the absolute-URL rule (the parser throws on
it) — yet the aggregated error carries only the length message for it: the
violated URL sub-rule is not collected, so per-field sub-rule collection is
short-circuited. -/
theorem validation_drops_shadowed_subrule :
    (jsTrim longA).length > 2048 ∧ demoURL (jsTrim longA) = none ∧
    validateSubmission demoURL cexBody
      = .err 400 "Validation failed" ["githubLink must be less than 2048 characters"] := by
  have h1 : (jsTrim longA).length > 2048 := by
    rw [jsTrim_longA, longA_length]; omega
  have h2 : demoURL (jsTrim longA) = none := by
    rw [jsTrim_longA]
    exact demoScheme_replicate_a 2049 []
  have hne : ¬ jsTrim longA = "" := by
    intro hc
    rw [hc] at h1
    simp [String.length] at h1
  have hgit : validateLink demoURL "githubLink" (.vStr longA)
      = ["githubLink must be less than 2048 characters"] := by
    simp [validateLink, hne, h1]
  have hppt : validateLink demoURL "pptLink" (.vStr "https://docs.example/p") = [] := by decide
  have hvid : validateLink demoURL "videoLink" (.vStr "https://youtu.be/v") = [] := by decide
  have hdesc : validateDescription (.vStr "demo") = [] := by decide
  refine ⟨h1, h2, ?_⟩
  simp [validateSubmission, cexBody, hgit, hppt, hvid, hdesc]

/-- C3 as amended: validation is aggregating across fields — on any invalid
input the whole submit pipeline stops, before any store access, with a single
400 `Validation failed` response whose details list one message per violated
field (tagged by the field name), the message of the first violated sub-rule
of that field, and no message for valid fields. -/
theorem validation_aggregates_violated_fields (urlOracle : URLOracle) (user : ReqUser)
    (b : Body) (teamQuery : TeamQuery) (nowStr : String) (sheet : List (List String))
    (h : ¬ (linkOK urlOracle b.githubLink = true ∧ linkOK urlOracle b.pptLink = true
            ∧ linkOK urlOracle b.videoLink = true ∧ descriptionOK b.description = true)) :
    ∃ errs : List String,
      submitPipeline urlOracle user b teamQuery nowStr sheet
        = (.invalid 400 "Validation failed" errs, sheet) ∧
      errs.countP (fun m => hasTag "githubLink" m)
        = (if linkOK urlOracle b.githubLink then 0 else 1) ∧
      errs.countP (fun m => hasTag "pptLink" m)
        = (if linkOK urlOracle b.pptLink then 0 else 1) ∧
      errs.countP (fun m => hasTag "videoLink" m)
        = (if linkOK urlOracle b.videoLink then 0 else 1) ∧
      errs.countP (fun m => hasTag "description" m)
        = (if descriptionOK b.description then 0 else 1) := by
  refine ⟨validateLink urlOracle "githubLink" b.githubLink
      ++ validateLink urlOracle "pptLink" b.pptLink
      ++ validateLink urlOracle "videoLink" b.videoLink
      ++ validateDescription b.description, ?_, ?_, ?_, ?_, ?_⟩
  · have hne : validateLink urlOracle "githubLink" b.githubLink
        ++ validateLink urlOracle "pptLink" b.pptLink
        ++ validateLink urlOracle "videoLink" b.videoLink
        ++ validateDescription b.description ≠ [] := by
      intro hnil
      rw [List.append_eq_nil, List.append_eq_nil, List.append_eq_nil] at hnil
      exact h ⟨linkOK_of_validateLink_nil _ _ _ hnil.1.1.1,
        linkOK_of_validateLink_nil _ _ _ hnil.1.1.2,
        linkOK_of_validateLink_nil _ _ _ hnil.1.2,
        descriptionOK_of_validateDescription_nil _ hnil.2⟩
    simp only [submitPipeline, validateSubmission]
    rw [if_neg hne]
  · simp only [List.countP_append,
      countP_validateLink_self urlOracle "githubLink" b.githubLink,
      countP_validateLink_other urlOracle "pptLink" "githubLink" b.pptLink (by decide),
      countP_validateLink_other urlOracle "videoLink" "githubLink" b.videoLink (by decide),
      countP_validateDescription_other "githubLink" b.description (by decide)]
    omega
  · simp only [List.countP_append,
      countP_validateLink_other urlOracle "githubLink" "pptLink" b.githubLink (by decide),
      countP_validateLink_self urlOracle "pptLink" b.pptLink,
      countP_validateLink_other urlOracle "videoLink" "pptLink" b.videoLink (by decide),
      countP_validateDescription_other "pptLink" b.description (by decide)]
    omega
  · simp only [List.countP_append,
      countP_validateLink_other urlOracle "githubLink" "videoLink" b.githubLink (by decide),
      countP_validateLink_other urlOracle "pptLink" "videoLink" b.pptLink (by decide),
      countP_validateLink_self urlOracle "videoLink" b.videoLink,
      countP_validateDescription_other "videoLink" b.description (by decide)]
    omega
  · simp only [List.countP_append,
      countP_validateLink_other urlOracle "githubLink" "description" b.githubLink (by decide),
      countP_validateLink_other urlOracle "pptLink" "description" b.pptLink (by decide),
      countP_validateLink_other urlOracle "videoLink" "description" b.videoLink (by decide),
      countP_validateDescription_self b.description]
    omega

/-- Closed witness for the amended C3 on the spec aggregation example: three
broken fields give one 400 response listing exactly the three violated
fields, with the sheet untouched. -/
theorem validation_aggregates_violated_fields_witness :
    ∃ errs : List String,
      submitPipeline demoURL userW cexAgg (fun _ => some docW) "2024-01-15 14:30:45" dupSheet
        = (.invalid 400 "Validation failed" errs, dupSheet) ∧
      errs.countP (fun m => hasTag "githubLink" m)
        = (if linkOK demoURL cexAgg.githubLink then 0 else 1) ∧
      errs.countP (fun m => hasTag "pptLink" m)
        = (if linkOK demoURL cexAgg.pptLink then 0 else 1) ∧
      errs.countP (fun m => hasTag "videoLink" m)
        = (if linkOK demoURL cexAgg.videoLink then 0 else 1) ∧
      errs.countP (fun m => hasTag "description" m)
        = (if descriptionOK cexAgg.description then 0 else 1) :=
  validation_aggregates_violated_fields demoURL userW cexAgg (fun _ => some docW)
    "2024-01-15 14:30:45" dupSheet (by decide)

end Sathack
